import Mathlib

/-!
Verification of the Briefcase Linux bootstrap launchers.

This file gives a shallow embedding of the two C bootstrap programs

  * briefcase-linux-flatpak-template  src/bootstrap/main.c   (flatpak variant)
  * briefcase-linux-system-template   bootstrap/main.c       (system variant)

Each program is a linear sequence of CPython embedding-API calls.  We model a
run of `main` as the ordered list of externally meaningful effects (an `Event`
trace) together with how the process terminates (`Termination`).  Calls into
the CPython embedding API are modelled at their documented interface:
a `PyStatus`-returning configuration call either succeeds or fails (a boolean
oracle in the input structure), `PyLong_AsLong` returns the value of an
integer object that fits in a C long and `-1` otherwise, and the
post-invocation error state is an abstract `PyExcState`.  Template
(cookiecutter) substitutions and the generated `pyversion.h` tag are
parameters of the input structure, since they are fixed at packaging time.
-/

namespace Briefcase

/-- Range bound of a C `long` on Linux (LP64): smallest value. -/
def cLongMin : Int := -(2 ^ 63)

/-- Range bound of a C `long` on Linux (LP64): largest value. -/
def cLongMax : Int := 2 ^ 63 - 1

/-- Range bound of a C `int`: smallest value. -/
def cIntMin : Int := -(2 ^ 31)

/-- Range bound of a C `int`: largest value. -/
def cIntMax : Int := 2 ^ 31 - 1

/-- Conversion of a C `long` value to a C `int`, as performed by the cast
`(int) PyLong_AsLong(...)` on line 223 of both variants: wrap-around modulo
2^32 into the signed 32-bit range. -/
def cIntCast (n : Int) : Int := (n + 2 ^ 31) % 2 ^ 32 - 2 ^ 31

/-- Interface model of the object stored in the `code` attribute of a
`SystemExit` exception.  `pyNone` is `None`, the value of `SystemExit.code`
when the exit request carries no payload; `pyInt n` is a Python integer of
value `n`; `other` is any other object. -/
inductive PyCodeAttr where
  | pyNone
  | pyInt (n : Int)
  | other
  deriving DecidableEq, Repr

/-- Interface model of `PyLong_AsLong`: the value of an integer object that
fits in a C `long`, and `-1` (with an error set) for an out-of-range integer
or a non-integer object (including `None`). -/
def pyLong_AsLong : PyCodeAttr → Int
  | .pyInt n => if cLongMin ≤ n ∧ n ≤ cLongMax then n else -1
  | _ => -1

/-- Interface model of the normalized interpreter error state fetched after
`PyObject_Call` returns NULL (lines 206-214).  `codeAttr = none` models
`PyObject_GetAttrString(exc_value, "code")` returning NULL; `codeAttr`
is only consulted when `isSystemExit` holds. -/
structure PyExcState where
  isSystemExit : Bool
  hasTraceback : Bool
  codeAttr : Option PyCodeAttr
  deriving DecidableEq, Repr

/-- Outcome of invoking the app module via
`runpy._run_module_as_main` (line 204): either the call returned a result
(`normal`) or it returned NULL with an exception set (`raised`). -/
inductive InvokeOutcome where
  | normal
  | raised (e : PyExcState)
  deriving DecidableEq, Repr

/-- Externally meaningful effects of the launcher, in program order.
`printErrToStderr` is the error/stack-trace write of `PyErr_Print` for a
non-SystemExit error; `stderrObj` is the write, performed inside
`PyErr_Print` when handling a SystemExit, of a payload that is neither an
integer nor None (or of the exception itself when its code attribute is
unretrievable) to standard error. -/
inductive Event where
  | preConfigInitIsolated
  | configInitIsolated
  | setUtf8Mode (v : Nat)
  | setBufferedStdio (v : Nat)
  | setWriteBytecode (v : Nat)
  | setModuleSearchPathsSet (v : Nat)
  | setSiteImport (v : Nat)
  | stdout (s : String)
  | preInit
  | setConfigHome (s : String)
  | setRunModule (s : String)
  | readConfig
  | appendSearchPath (s : String)
  | setArgv
  | initRuntime
  | importRunpy
  | getAttrRunModuleAsMain
  | toUnicodeEv (s : String)
  | buildArgs
  | flushStd
  | invoke
  | fetchError
  | restoreError
  | printErrToStderr
  | stderrObj
  | clearConfig
  | finalize
  deriving DecidableEq, Repr

/-- How the process terminates: `code n` for `exit(n)` or `return n` from
`main`; `statusException` for `Py_ExitStatusException(status)`, the
runtime's own status-reporting exit routine. -/
inductive Termination where
  | code (n : Int)
  | statusException
  deriving DecidableEq, Repr

/-- A run of the launcher: the effect trace and the termination. -/
structure Run where
  events : List Event
  term : Termination
  deriving DecidableEq, Repr

/-- The failure handling of every fallible configuration step, lines such as
47-50 of both variants: `PyConfig_Clear(&config); Py_ExitStatusException(status)`. -/
def cfgFail (evs : List Event) : Run := ⟨evs ++ [.clearConfig], .statusException⟩

/-- Entry-module resolution, lines 68-71 (flatpak) and 74-77 (system):
`getenv("BRIEFCASE_MAIN_MODULE")`, with fallback to the build-time template
value only when the variable is unset (`getenv` returned NULL).  `env` is
`none` when the variable is unset and `some v` when it is set to `v`
(possibly the empty string). -/
def resolve_app_module (env : Option String) (buildDefault : String) : String :=
  match env with
  | none => buildDefault
  | some m => m

/-- Interface model of POSIX `dirname` as used on the canonical absolute path
returned by `realpath` (lines 36-38 of the system variant): everything up to
the last path separator, with the POSIX special cases for a separator-free
string (".") and a name in the root directory ("/"). -/
def dirname (s : String) : String :=
  let r := ((s.data.reverse.dropWhile (fun c => c ≠ '/')).drop 1).reverse
  if r.isEmpty then (if s.startsWith "/" then "/" else ".") else String.mk r

/-- Install-path computation of the system variant, lines 36-38:
`bin_path = dirname(exe_path); install_path = dirname(bin_path)`. -/
def installPathOf (exePath : String) : String := dirname (dirname exePath)

/-- Outcome classification of the flatpak variant, transcribed from lines
204-245 of its main.c.  `PyErr_Print` (line 237) is modelled at its
documented interface.  For a non-SystemExit error it writes the error and
stack trace to standard error (`printErrToStderr`) and returns, so
`exit(ret)` on line 239 terminates the process.  For a SystemExit it never
returns -- as the source's own comment on line 236 notes, it calls exit:
its handler derives the process code from the exit request's payload (None
gives 0; an integer goes through the same `(int)PyLong_AsLong` conversion;
any other payload, and likewise an unretrievable code attribute, is written
to standard error (`stderrObj`) and gives 1) and terminates through
`Py_Exit`, which performs the runtime teardown (`finalize`) before exiting,
leaving `exit(ret)` on line 239 unreached. -/
def flatpakClassify (o : InvokeOutcome) : Run :=
  match o with
  | .normal => ⟨[.finalize], .code 0⟩
  | .raised e =>
    if e.hasTraceback then
      let r : List Event × Int :=
        if e.isSystemExit then
          match e.codeAttr with
          | none => ([.stdout "Could not determine exit code"], (-10 : Int))
          | some a => ([], cIntCast (pyLong_AsLong a))
        else ([], (-6 : Int))
      if r.2 ≠ 0 then
        let pre : List Event := [.fetchError] ++ r.1 ++
          [.stdout ("Application quit abnormally (Exit code " ++ toString r.2 ++ ")!"),
           .restoreError]
        if e.isSystemExit then
          match e.codeAttr with
          | some .pyNone => ⟨pre ++ [.finalize], .code 0⟩
          | some (.pyInt n) =>
            ⟨pre ++ [.finalize], .code (cIntCast (pyLong_AsLong (.pyInt n)))⟩
          | some .other => ⟨pre ++ [.stderrObj, .finalize], .code 1⟩
          | none => ⟨pre ++ [.stderrObj, .finalize], .code 1⟩
        else ⟨pre ++ [.printErrToStderr], .code r.2⟩
      else
        ⟨[.fetchError] ++ r.1 ++ [.finalize], .code 0⟩
    else ⟨[.fetchError], .code (-5)⟩

/-- Outcome classification of the system variant, transcribed from lines
204-245 of its main.c (textually identical to the flatpak variant's),
with `PyErr_Print` modelled as for the flatpak variant. -/
def systemClassify (o : InvokeOutcome) : Run :=
  match o with
  | .normal => ⟨[.finalize], .code 0⟩
  | .raised e =>
    if e.hasTraceback then
      let r : List Event × Int :=
        if e.isSystemExit then
          match e.codeAttr with
          | none => ([.stdout "Could not determine exit code"], (-10 : Int))
          | some a => ([], cIntCast (pyLong_AsLong a))
        else ([], (-6 : Int))
      if r.2 ≠ 0 then
        let pre : List Event := [.fetchError] ++ r.1 ++
          [.stdout ("Application quit abnormally (Exit code " ++ toString r.2 ++ ")!"),
           .restoreError]
        if e.isSystemExit then
          match e.codeAttr with
          | some .pyNone => ⟨pre ++ [.finalize], .code 0⟩
          | some (.pyInt n) =>
            ⟨pre ++ [.finalize], .code (cIntCast (pyLong_AsLong (.pyInt n)))⟩
          | some .other => ⟨pre ++ [.stderrObj, .finalize], .code 1⟩
          | none => ⟨pre ++ [.stderrObj, .finalize], .code 1⟩
        else ⟨pre ++ [.printErrToStderr], .code r.2⟩
      else
        ⟨[.fetchError] ++ r.1 ++ [.finalize], .code 0⟩
    else ⟨[.fetchError], .code (-5)⟩

/-- Separator line printed before handing control to application code
(line 199 of both variants). -/
def sepLine : String := String.mk (List.replicate 75 '-')

/-- Projection selecting the search-path append events of a trace. -/
def pathOf : Event → Option String
  | .appendSearchPath p => some p
  | _ => none

/-- The search paths appended to the configuration during a run, in order. -/
def Run.appendedPaths (r : Run) : List String := r.events.filterMap pathOf

/-- Inputs of a flatpak-variant run: template substitutions, the
`BRIEFCASE_MAIN_MODULE` environment variable, the success of each fallible
embedding-API call (in program order), and the app-module invocation
outcome. -/
structure FlatpakInput where
  envMainModule : Option String
  moduleName : String
  pyVerCompact : String
  pyVerDotted : String
  preInitOk : Bool
  setHomeOk : Bool
  setRunModuleOk : Bool
  readConfigOk : Bool
  appendZipOk : Bool
  appendStdlibOk : Bool
  appendDynloadOk : Bool
  appendAppPkgsOk : Bool
  appendAppOk : Bool
  setArgvOk : Bool
  initOk : Bool
  importRunpyOk : Bool
  getAttrOk : Bool
  toUnicodeOk : Bool
  buildValueOk : Bool
  outcome : InvokeOutcome
  deriving DecidableEq, Repr

/-- Inputs of a system-variant run.  `exePath` is the canonical executable
location returned by `realpath("/proc/self/exe")`; `pyTag` is the `PY_TAG`
constant from the generated pyversion.h. -/
structure SystemInput where
  envMainModule : Option String
  moduleName : String
  libDir : String
  appName : String
  pyTag : String
  exePath : String
  preInitOk : Bool
  setRunModuleOk : Bool
  readConfigOk : Bool
  appendStdlibOk : Bool
  appendDynloadOk : Bool
  appendAppOk : Bool
  appendAppPkgsOk : Bool
  setArgvOk : Bool
  initOk : Bool
  importRunpyOk : Bool
  getAttrOk : Bool
  toUnicodeOk : Bool
  buildValueOk : Bool
  outcome : InvokeOutcome
  deriving DecidableEq, Repr

/-- The search paths appended by the flatpak variant, in program order
(lines 87-147): stdlib zip archive, unpacked stdlib, stdlib binary modules,
app_packages, app. -/
def flatpakSearchPaths (pyVerCompact pyVerDotted : String) : List String :=
  ["/app/lib/python" ++ pyVerCompact ++ ".zip",
   "/app/lib/python" ++ pyVerDotted,
   "/app/lib/python" ++ pyVerDotted ++ "/lib-dynload",
   "/app/briefcase/app_packages",
   "/app/briefcase/app"]

/-- The search paths appended by the system variant, in program order
(lines 93-145): unpacked stdlib, stdlib binary modules, app, app_packages. -/
def systemSearchPaths (installPath libDir pyTag appName : String) : List String :=
  ["/usr/" ++ libDir ++ "/python" ++ pyTag,
   "/usr/" ++ libDir ++ "/python" ++ pyTag ++ "/lib-dynload",
   installPath ++ "/" ++ libDir ++ "/" ++ appName ++ "/app",
   installPath ++ "/" ++ libDir ++ "/" ++ appName ++ "/app_packages"]

/-- Lines 165-204 of the flatpak variant: import runpy, resolve
`_run_module_as_main`, build the arguments, flush, invoke the app module, and
classify the outcome.  The commented-out crash_dialog calls mean the four
NULL-check failure paths print nothing before `exit(-2)`, `exit(-3)`,
`exit(-3)`, `exit(-4)` respectively. -/
def flatpakTail (i : FlatpakInput) (name : String) : Run :=
  let e0 : List Event := [.stdout ("Running app module: " ++ name), .importRunpy]
  if i.importRunpyOk then
    let e1 := e0 ++ [.getAttrRunModuleAsMain]
    if i.getAttrOk then
      let e2 := e1 ++ [.toUnicodeEv name]
      if i.toUnicodeOk then
        let e3 := e2 ++ [.buildArgs]
        if i.buildValueOk then
          let c := flatpakClassify i.outcome
          ⟨e3 ++ [.stdout sepLine, .flushStd, .invoke] ++ c.events, c.term⟩
        else ⟨e3, .code (-4)⟩
      else ⟨e2, .code (-3)⟩
    else ⟨e1, .code (-3)⟩
  else ⟨e0, .code (-2)⟩

/-- Lines 165-204 of the system variant (textually identical to the flatpak
variant's tail). -/
def systemTail (i : SystemInput) (name : String) : Run :=
  let e0 : List Event := [.stdout ("Running app module: " ++ name), .importRunpy]
  if i.importRunpyOk then
    let e1 := e0 ++ [.getAttrRunModuleAsMain]
    if i.getAttrOk then
      let e2 := e1 ++ [.toUnicodeEv name]
      if i.toUnicodeOk then
        let e3 := e2 ++ [.buildArgs]
        if i.buildValueOk then
          let c := systemClassify i.outcome
          ⟨e3 ++ [.stdout sepLine, .flushStd, .invoke] ++ c.events, c.term⟩
        else ⟨e3, .code (-4)⟩
      else ⟨e2, .code (-3)⟩
    else ⟨e1, .code (-3)⟩
  else ⟨e0, .code (-2)⟩

/-- The flatpak variant's main, transcribed in program order from its
main.c.  Each fallible configuration call is checked with the uniform
`PyConfig_Clear` + `Py_ExitStatusException` pattern (`cfgFail`). -/
def flatpakMain (i : FlatpakInput) : Run :=
  let name := resolve_app_module i.envMainModule i.moduleName
  let e0 : List Event :=
    [.preConfigInitIsolated, .configInitIsolated,
     .setUtf8Mode 1, .setBufferedStdio 0, .setWriteBytecode 0, .setModuleSearchPathsSet 1,
     .stdout "Pre-initializing Python runtime...", .preInit]
  if i.preInitOk then
    let e1 := e0 ++ [.stdout "PYTHONHOME: /app", .setConfigHome "/app"]
    if i.setHomeOk then
      let e2 := e1 ++ [.setRunModule name]
      if i.setRunModuleOk then
        let e3 := e2 ++ [.readConfig]
        if i.readConfigOk then
          let p1 := "/app/lib/python" ++ i.pyVerCompact ++ ".zip"
          let e4 := e3 ++ [.stdout "PYTHONPATH:", .stdout ("- " ++ p1), .appendSearchPath p1]
          if i.appendZipOk then
            let p2 := "/app/lib/python" ++ i.pyVerDotted
            let e5 := e4 ++ [.stdout ("- " ++ p2), .appendSearchPath p2]
            if i.appendStdlibOk then
              let p3 := "/app/lib/python" ++ i.pyVerDotted ++ "/lib-dynload"
              let e6 := e5 ++ [.stdout ("- " ++ p3), .appendSearchPath p3]
              if i.appendDynloadOk then
                let p4 := "/app/briefcase/app_packages"
                let e7 := e6 ++ [.stdout ("- " ++ p4), .appendSearchPath p4]
                if i.appendAppPkgsOk then
                  let p5 := "/app/briefcase/app"
                  let e8 := e7 ++ [.stdout ("- " ++ p5), .appendSearchPath p5]
                  if i.appendAppOk then
                    let e9 := e8 ++ [.stdout "Configure argc/argv...", .setArgv]
                    if i.setArgvOk then
                      let e10 := e9 ++ [.stdout "Initializing Python runtime...", .initRuntime]
                      if i.initOk then
                        let t := flatpakTail i name
                        ⟨e10 ++ t.events, t.term⟩
                      else cfgFail e10
                    else cfgFail e9
                  else cfgFail e8
                else cfgFail e7
              else cfgFail e6
            else cfgFail e5
          else cfgFail e4
        else cfgFail e3
      else cfgFail e2
    else cfgFail e1
  else cfgFail e0

/-- The system variant's main, transcribed in program order from its main.c:
executable-location resolution first, then the isolated configuration (with
`site_import = 0`), entry-module resolution (no PYTHONHOME step), site-config
read, the four search paths, argv, initialization, and the shared tail. -/
def systemMain (i : SystemInput) : Run :=
  let installPath := installPathOf i.exePath
  let name := resolve_app_module i.envMainModule i.moduleName
  let e0 : List Event :=
    [.stdout ("Install path: " ++ installPath),
     .preConfigInitIsolated, .configInitIsolated,
     .setUtf8Mode 1, .setBufferedStdio 0, .setWriteBytecode 0, .setModuleSearchPathsSet 1,
     .setSiteImport 0,
     .stdout "Pre-initializing Python runtime...", .preInit]
  if i.preInitOk then
    let e1 := e0 ++ [.setRunModule name]
    if i.setRunModuleOk then
      let e2 := e1 ++ [.readConfig]
      if i.readConfigOk then
        let p1 := "/usr/" ++ i.libDir ++ "/python" ++ i.pyTag
        let e3 := e2 ++ [.stdout "PYTHONPATH:", .stdout ("- " ++ p1), .appendSearchPath p1]
        if i.appendStdlibOk then
          let p2 := "/usr/" ++ i.libDir ++ "/python" ++ i.pyTag ++ "/lib-dynload"
          let e4 := e3 ++ [.stdout ("- " ++ p2), .appendSearchPath p2]
          if i.appendDynloadOk then
            let p3 := installPath ++ "/" ++ i.libDir ++ "/" ++ i.appName ++ "/app"
            let e5 := e4 ++ [.stdout ("- " ++ p3), .appendSearchPath p3]
            if i.appendAppOk then
              let p4 := installPath ++ "/" ++ i.libDir ++ "/" ++ i.appName ++ "/app_packages"
              let e6 := e5 ++ [.stdout ("- " ++ p4), .appendSearchPath p4]
              if i.appendAppPkgsOk then
                let e7 := e6 ++ [.stdout "Configure argc/argv...", .setArgv]
                if i.setArgvOk then
                  let e8 := e7 ++ [.stdout "Initializing Python runtime...", .initRuntime]
                  if i.initOk then
                    let t := systemTail i name
                    ⟨e8 ++ t.events, t.term⟩
                  else cfgFail e8
                else cfgFail e7
              else cfgFail e6
            else cfgFail e5
          else cfgFail e4
        else cfgFail e3
      else cfgFail e2
    else cfgFail e1
  else cfgFail e0

/-- All configuration steps up to and including runtime initialization
succeed (flatpak variant). -/
def FlatpakInput.cfgOk (i : FlatpakInput) : Prop :=
  i.preInitOk = true ∧ i.setHomeOk = true ∧ i.setRunModuleOk = true ∧
  i.readConfigOk = true ∧ i.appendZipOk = true ∧ i.appendStdlibOk = true ∧
  i.appendDynloadOk = true ∧ i.appendAppPkgsOk = true ∧ i.appendAppOk = true ∧
  i.setArgvOk = true ∧ i.initOk = true

/-- All setup steps, including the import/invocation preparation, succeed,
so that the app module is actually invoked (flatpak variant). -/
def FlatpakInput.setupOk (i : FlatpakInput) : Prop :=
  i.cfgOk ∧ i.importRunpyOk = true ∧ i.getAttrOk = true ∧
  i.toUnicodeOk = true ∧ i.buildValueOk = true

/-- All configuration steps up to and including runtime initialization
succeed (system variant). -/
def SystemInput.cfgOk (i : SystemInput) : Prop :=
  i.preInitOk = true ∧ i.setRunModuleOk = true ∧ i.readConfigOk = true ∧
  i.appendStdlibOk = true ∧ i.appendDynloadOk = true ∧ i.appendAppOk = true ∧
  i.appendAppPkgsOk = true ∧ i.setArgvOk = true ∧ i.initOk = true

/-- All setup steps, including the import/invocation preparation, succeed,
so that the app module is actually invoked (system variant). -/
def SystemInput.setupOk (i : SystemInput) : Prop :=
  i.cfgOk ∧ i.importRunpyOk = true ∧ i.getAttrOk = true ∧
  i.toUnicodeOk = true ∧ i.buildValueOk = true

/-- The event trace of the flatpak variant's configuration phase when every
configuration step succeeds, through runtime initialization. -/
def flatpakCfgEvents (i : FlatpakInput) : List Event :=
  [.preConfigInitIsolated, .configInitIsolated,
   .setUtf8Mode 1, .setBufferedStdio 0, .setWriteBytecode 0, .setModuleSearchPathsSet 1,
   .stdout "Pre-initializing Python runtime...", .preInit,
   .stdout "PYTHONHOME: /app", .setConfigHome "/app",
   .setRunModule (resolve_app_module i.envMainModule i.moduleName), .readConfig,
   .stdout "PYTHONPATH:",
   .stdout ("- " ++ ("/app/lib/python" ++ i.pyVerCompact ++ ".zip")),
   .appendSearchPath ("/app/lib/python" ++ i.pyVerCompact ++ ".zip"),
   .stdout ("- " ++ ("/app/lib/python" ++ i.pyVerDotted)),
   .appendSearchPath ("/app/lib/python" ++ i.pyVerDotted),
   .stdout ("- " ++ ("/app/lib/python" ++ i.pyVerDotted ++ "/lib-dynload")),
   .appendSearchPath ("/app/lib/python" ++ i.pyVerDotted ++ "/lib-dynload"),
   .stdout ("- " ++ "/app/briefcase/app_packages"),
   .appendSearchPath "/app/briefcase/app_packages",
   .stdout ("- " ++ "/app/briefcase/app"),
   .appendSearchPath "/app/briefcase/app",
   .stdout "Configure argc/argv...", .setArgv,
   .stdout "Initializing Python runtime...", .initRuntime]

/-- The event trace of the system variant's configuration phase when every
configuration step succeeds, through runtime initialization. -/
def systemCfgEvents (i : SystemInput) : List Event :=
  [.stdout ("Install path: " ++ installPathOf i.exePath),
   .preConfigInitIsolated, .configInitIsolated,
   .setUtf8Mode 1, .setBufferedStdio 0, .setWriteBytecode 0, .setModuleSearchPathsSet 1,
   .setSiteImport 0,
   .stdout "Pre-initializing Python runtime...", .preInit,
   .setRunModule (resolve_app_module i.envMainModule i.moduleName), .readConfig,
   .stdout "PYTHONPATH:",
   .stdout ("- " ++ ("/usr/" ++ i.libDir ++ "/python" ++ i.pyTag)),
   .appendSearchPath ("/usr/" ++ i.libDir ++ "/python" ++ i.pyTag),
   .stdout ("- " ++ ("/usr/" ++ i.libDir ++ "/python" ++ i.pyTag ++ "/lib-dynload")),
   .appendSearchPath ("/usr/" ++ i.libDir ++ "/python" ++ i.pyTag ++ "/lib-dynload"),
   .stdout ("- " ++ (installPathOf i.exePath ++ "/" ++ i.libDir ++ "/" ++ i.appName ++ "/app")),
   .appendSearchPath (installPathOf i.exePath ++ "/" ++ i.libDir ++ "/" ++ i.appName ++ "/app"),
   .stdout ("- " ++
     (installPathOf i.exePath ++ "/" ++ i.libDir ++ "/" ++ i.appName ++ "/app_packages")),
   .appendSearchPath
     (installPathOf i.exePath ++ "/" ++ i.libDir ++ "/" ++ i.appName ++ "/app_packages"),
   .stdout "Configure argc/argv...", .setArgv,
   .stdout "Initializing Python runtime...", .initRuntime]

/-- The import/invocation-preparation events when every step succeeds. -/
def runPhaseEvents (name : String) : List Event :=
  [.stdout ("Running app module: " ++ name), .importRunpy,
   .getAttrRunModuleAsMain, .toUnicodeEv name, .buildArgs,
   .stdout sepLine, .flushStd, .invoke]

/-- The isolation/suppression configuration of the flatpak variant: isolated
pre-config and config, UTF-8 mode, unbuffered stdio, no bytecode writing,
explicit module search paths. -/
def flatpakIsolationFlags : List Event :=
  [.preConfigInitIsolated, .configInitIsolated, .setUtf8Mode 1, .setBufferedStdio 0,
   .setWriteBytecode 0, .setModuleSearchPathsSet 1]

/-- The isolation/suppression configuration of the system variant: the
flatpak flags plus suppression of the site import. -/
def systemIsolationFlags : List Event :=
  flatpakIsolationFlags ++ [.setSiteImport 0]

/-- An event list sets all the given flags before the first runtime
initialization event. -/
def flagsBeforeInit (flags evs : List Event) : Prop :=
  ∀ f ∈ flags, f ∈ evs.takeWhile (fun e => !(e == Event.initRuntime))

/-- A flatpak input with representative template values, every embedding-API
call succeeding, and a given invocation outcome. -/
def fpWith (o : InvokeOutcome) : FlatpakInput :=
  ⟨none, "myapp", "312", "3.12", true, true, true, true, true, true, true, true, true,
   true, true, true, true, true, true, o⟩

/-- A system input with representative template values, every embedding-API
call succeeding, and a given invocation outcome. -/
def sysWith (o : InvokeOutcome) : SystemInput :=
  ⟨none, "testapp", "lib", "testapp", "312", "/opt/testapp/bin/testapp",
   true, true, true, true, true, true, true, true, true, true, true, true, true, o⟩

/-- Externally visible effects: writes to standard output and standard
error.  Interpreter-internal events (error fetch, teardown, configuration
calls) are not observable outside the process. -/
def Event.visible : Event → Bool
  | .stdout _ => true
  | .printErrToStderr => true
  | .stderrObj => true
  | _ => false

/-- A flatpak run in which the first configuration call fails. -/
def fpPreInitFail : FlatpakInput := { fpWith .normal with preInitOk := false }

/-- A flatpak run in which the runpy import fails. -/
def fpRunpyFail : FlatpakInput := { fpWith .normal with importRunpyOk := false }

/-- A flatpak run in which the attribute lookup on runpy fails. -/
def fpAttrFail : FlatpakInput := { fpWith .normal with getAttrOk := false }

/-- A flatpak run in which the module-name conversion fails. -/
def fpUnicodeFail : FlatpakInput := { fpWith .normal with toUnicodeOk := false }

/-- A flatpak run in which the entry module raises SystemExit(0). -/
def fpExitZero : FlatpakInput := fpWith (.raised ⟨true, true, some (.pyInt 0)⟩)

/-! ### Helper lemmas -/

/-- Conversion to C int is the identity on values in the int range. -/
theorem cIntCast_eq_self {n : Int} (h1 : cIntMin ≤ n) (h2 : n ≤ cIntMax) :
    cIntCast n = n := by
  unfold cIntMin at h1
  unfold cIntMax at h2
  unfold cIntCast
  omega

/-- PyLong_AsLong returns the value of an integer that fits in a C int. -/
theorem pyLong_AsLong_int {n : Int} (h1 : cIntMin ≤ n) (h2 : n ≤ cIntMax) :
    pyLong_AsLong (.pyInt n) = n := by
  have h : cLongMin ≤ n ∧ n ≤ cLongMax := by
    unfold cLongMin cLongMax
    unfold cIntMin at h1
    unfold cIntMax at h2
    omega
  simp [pyLong_AsLong, h]

/-- The two variants' outcome classifications are the same function. -/
theorem classify_eq (o : InvokeOutcome) : flatpakClassify o = systemClassify o := rfl

/-- Classification never terminates through the status-exception routine. -/
theorem flatpakClassify_term_ne (o : InvokeOutcome) :
    (flatpakClassify o).term ≠ .statusException := by
  rcases o with _ | ⟨se, tb, ca⟩
  · simp [flatpakClassify]
  · rcases tb <;> rcases se <;> rcases ca with _ | (_ | n | _) <;>
      simp [flatpakClassify] <;> (try split) <;> simp

/-- Classification appends no search paths. -/
theorem flatpakClassify_paths (o : InvokeOutcome) :
    (flatpakClassify o).events.filterMap pathOf = [] := by
  rcases o with _ | ⟨se, tb, ca⟩
  · simp [flatpakClassify, pathOf]
  · rcases tb <;> rcases se <;> rcases ca with _ | (_ | n | _) <;>
      simp [flatpakClassify, pathOf] <;> (try split) <;> simp [pathOf]

/-- Classification contains no initialization event. -/
theorem flatpakClassify_no_init (o : InvokeOutcome) :
    Event.initRuntime ∉ (flatpakClassify o).events := by
  rcases o with _ | ⟨se, tb, ca⟩
  · simp [flatpakClassify]
  · rcases tb <;> rcases se <;> rcases ca with _ | (_ | n | _) <;>
      simp [flatpakClassify] <;> (try split) <;> simp

/-- Finalization happens in the classification exactly on a normal return or
an exit request with a retrievable traceback: a zero-converting exit request
finalizes through the normal fall-through, the other exit requests finalize
inside the error-print routine before it exits the process. -/
theorem flatpakClassify_finalize_iff (o : InvokeOutcome) :
    Event.finalize ∈ (flatpakClassify o).events ↔
      (o = .normal ∨ ∃ e, o = .raised e ∧ e.hasTraceback = true ∧
        e.isSystemExit = true) := by
  rcases o with _ | ⟨se, tb, ca⟩
  · simp [flatpakClassify]
  · rcases tb <;> rcases se <;> rcases ca with _ | (_ | n | _) <;>
      simp [flatpakClassify] <;> (try split) <;> simp_all

/-- Classification of a SystemExit carrying an integer payload: the process
code is the C-int cast of the PyLong_AsLong result (the launcher's ret and
the error-print routine's exit handler perform the identical conversion),
and the runtime is finalized on this path. -/
theorem flatpakClassify_sysexit_int (e : PyExcState) (n : Int)
    (hse : e.isSystemExit = true) (htb : e.hasTraceback = true)
    (hca : e.codeAttr = some (.pyInt n)) :
    (flatpakClassify (.raised e)).term = .code (cIntCast (pyLong_AsLong (.pyInt n))) ∧
    Event.finalize ∈ (flatpakClassify (.raised e)).events := by
  rcases e with ⟨se, tb, ca⟩
  simp only at hse htb hca
  subst hse htb hca
  by_cases h : cIntCast (pyLong_AsLong (.pyInt n)) = 0 <;> simp [flatpakClassify, h]

/-- Classification of a SystemExit with no payload (code None): the launcher
computes ret = -1 and prints the abnormal-exit message, but the error-print
routine's exit handler finalizes the runtime and exits with code 0. -/
theorem flatpakClassify_pyNone :
    flatpakClassify (.raised ⟨true, true, some .pyNone⟩) =
      ⟨[.fetchError,
        .stdout ("Application quit abnormally (Exit code " ++ toString (-1 : Int) ++ ")!"),
        .restoreError, .finalize], .code 0⟩ := by
  decide

/-- Classification of a SystemExit whose payload is neither None nor an
integer: ret = -1 and the abnormal-exit message, then the error-print
routine writes the payload to standard error, finalizes the runtime, and
exits with code 1. -/
theorem flatpakClassify_other :
    flatpakClassify (.raised ⟨true, true, some .other⟩) =
      ⟨[.fetchError,
        .stdout ("Application quit abnormally (Exit code " ++ toString (-1 : Int) ++ ")!"),
        .restoreError, .stderrObj, .finalize], .code 1⟩ := by
  decide

/-- Classification of a SystemExit whose code converts to 0: the normal
fall-through path, with finalization and return code 0. -/
theorem flatpakClassify_sysexit_zero (e : PyExcState) (a : PyCodeAttr)
    (hse : e.isSystemExit = true) (htb : e.hasTraceback = true)
    (hca : e.codeAttr = some a) (h0 : cIntCast (pyLong_AsLong a) = 0) :
    flatpakClassify (.raised e) = ⟨[.fetchError, .finalize], .code 0⟩ := by
  rcases e with ⟨se, tb, ca⟩
  simp only at hse htb hca
  subst hse htb hca
  simp [flatpakClassify, h0]

/-- Classification of an uncaught non-SystemExit error with a traceback:
the fixed code -6 and a trace ending in the stderr error print. -/
theorem flatpakClassify_uncaught (e : PyExcState)
    (hse : e.isSystemExit = false) (htb : e.hasTraceback = true) :
    flatpakClassify (.raised e) =
      ⟨[.fetchError,
        .stdout ("Application quit abnormally (Exit code " ++ toString (-6 : Int) ++ ")!"),
        .restoreError, .printErrToStderr], .code (-6)⟩ := by
  rcases e with ⟨se, tb, ca⟩
  simp only at hse htb
  subst hse htb
  simp [flatpakClassify]

/-- Decomposition of a flatpak run in which every configuration step
succeeds: the full configuration trace followed by the tail. -/
theorem flatpakMain_cfg (i : FlatpakInput) (h : i.cfgOk) :
    flatpakMain i =
      ⟨flatpakCfgEvents i ++
         (flatpakTail i (resolve_app_module i.envMainModule i.moduleName)).events,
       (flatpakTail i (resolve_app_module i.envMainModule i.moduleName)).term⟩ := by
  obtain ⟨h1, h2, h3, h4, h5, h6, h7, h8, h9, h10, h11⟩ := h
  simp [flatpakMain, flatpakCfgEvents, h1, h2, h3, h4, h5, h6, h7, h8, h9, h10, h11]

/-- Decomposition of a system run in which every configuration step
succeeds: the full configuration trace followed by the tail. -/
theorem systemMain_cfg (i : SystemInput) (h : i.cfgOk) :
    systemMain i =
      ⟨systemCfgEvents i ++
         (systemTail i (resolve_app_module i.envMainModule i.moduleName)).events,
       (systemTail i (resolve_app_module i.envMainModule i.moduleName)).term⟩ := by
  obtain ⟨h1, h2, h3, h4, h5, h6, h7, h8, h9⟩ := h
  simp [systemMain, systemCfgEvents, h1, h2, h3, h4, h5, h6, h7, h8, h9]

/-- The flatpak tail when all import/invocation-preparation steps succeed. -/
theorem flatpakTail_setup (i : FlatpakInput) (name : String)
    (h1 : i.importRunpyOk = true) (h2 : i.getAttrOk = true)
    (h3 : i.toUnicodeOk = true) (h4 : i.buildValueOk = true) :
    flatpakTail i name =
      ⟨runPhaseEvents name ++ (flatpakClassify i.outcome).events,
       (flatpakClassify i.outcome).term⟩ := by
  simp [flatpakTail, runPhaseEvents, h1, h2, h3, h4]

/-- The system tail when all import/invocation-preparation steps succeed. -/
theorem systemTail_setup (i : SystemInput) (name : String)
    (h1 : i.importRunpyOk = true) (h2 : i.getAttrOk = true)
    (h3 : i.toUnicodeOk = true) (h4 : i.buildValueOk = true) :
    systemTail i name =
      ⟨runPhaseEvents name ++ (systemClassify i.outcome).events,
       (systemClassify i.outcome).term⟩ := by
  simp [systemTail, runPhaseEvents, h1, h2, h3, h4]

/-- Termination of a fully set-up flatpak run is the classification's. -/
theorem flatpakMain_setup_term (i : FlatpakInput) (h : i.setupOk) :
    (flatpakMain i).term = (flatpakClassify i.outcome).term := by
  obtain ⟨hc, h1, h2, h3, h4⟩ := h
  rw [flatpakMain_cfg i hc, flatpakTail_setup i _ h1 h2 h3 h4]

/-- Termination of a fully set-up system run is the classification's. -/
theorem systemMain_setup_term (i : SystemInput) (h : i.setupOk) :
    (systemMain i).term = (systemClassify i.outcome).term := by
  obtain ⟨hc, h1, h2, h3, h4⟩ := h
  rw [systemMain_cfg i hc, systemTail_setup i _ h1 h2 h3 h4]

/-- Event trace of a fully set-up flatpak run. -/
theorem flatpakMain_setup_events (i : FlatpakInput) (h : i.setupOk) :
    (flatpakMain i).events =
      (flatpakCfgEvents i ++
        runPhaseEvents (resolve_app_module i.envMainModule i.moduleName)) ++
      (flatpakClassify i.outcome).events := by
  obtain ⟨hc, h1, h2, h3, h4⟩ := h
  rw [flatpakMain_cfg i hc, flatpakTail_setup i _ h1 h2 h3 h4]
  simp

/-- Event trace of a fully set-up system run. -/
theorem systemMain_setup_events (i : SystemInput) (h : i.setupOk) :
    (systemMain i).events =
      (systemCfgEvents i ++
        runPhaseEvents (resolve_app_module i.envMainModule i.moduleName)) ++
      (systemClassify i.outcome).events := by
  obtain ⟨hc, h1, h2, h3, h4⟩ := h
  rw [systemMain_cfg i hc, systemTail_setup i _ h1 h2 h3 h4]
  simp

/-- The system classification appends no search paths. -/
theorem systemClassify_paths (o : InvokeOutcome) :
    (systemClassify o).events.filterMap pathOf = [] := by
  rw [← classify_eq]
  exact flatpakClassify_paths o

/-- The flatpak tail appends no search paths. -/
theorem flatpakTail_paths (i : FlatpakInput) (name : String) :
    (flatpakTail i name).events.filterMap pathOf = [] := by
  unfold flatpakTail
  split
  · split
    · split
      · split
        · simp [pathOf, List.filterMap_append, flatpakClassify_paths]
        · simp [pathOf]
      · simp [pathOf]
    · simp [pathOf]
  · simp [pathOf]

/-- The system tail appends no search paths. -/
theorem systemTail_paths (i : SystemInput) (name : String) :
    (systemTail i name).events.filterMap pathOf = [] := by
  unfold systemTail
  split
  · split
    · split
      · split
        · simp [pathOf, List.filterMap_append, systemClassify_paths]
        · simp [pathOf]
      · simp [pathOf]
    · simp [pathOf]
  · simp [pathOf]

/-- The search paths appended during a flatpak run with a completed
configuration phase are exactly the five flatpak paths, in program order. -/
theorem flatpakMain_paths (i : FlatpakInput) (h : i.cfgOk) :
    (flatpakMain i).appendedPaths = flatpakSearchPaths i.pyVerCompact i.pyVerDotted := by
  rw [Run.appendedPaths, flatpakMain_cfg i h]
  simp only [List.filterMap_append, flatpakTail_paths]
  simp [flatpakCfgEvents, flatpakSearchPaths, pathOf]

/-- The search paths appended during a system run with a completed
configuration phase are exactly the four system paths, in program order. -/
theorem systemMain_paths (i : SystemInput) (h : i.cfgOk) :
    (systemMain i).appendedPaths =
      systemSearchPaths (installPathOf i.exePath) i.libDir i.pyTag i.appName := by
  rw [Run.appendedPaths, systemMain_cfg i h]
  simp only [List.filterMap_append, systemTail_paths]
  simp [systemCfgEvents, systemSearchPaths, pathOf]

/-- In every flatpak run with a completed configuration phase, the isolation
flags are set before the runtime is initialized. -/
theorem flatpakMain_flags (i : FlatpakInput) (h : i.cfgOk) :
    flagsBeforeInit flatpakIsolationFlags (flatpakMain i).events := by
  rw [flatpakMain_cfg i h]
  intro f hf
  simp only [flatpakIsolationFlags, List.mem_cons, List.not_mem_nil, or_false] at hf
  rcases hf with rfl | rfl | rfl | rfl | rfl | rfl <;>
    simp [flatpakCfgEvents, List.takeWhile_cons]

/-- In every system run with a completed configuration phase, the isolation
and site-suppression flags are set before the runtime is initialized. -/
theorem systemMain_flags (i : SystemInput) (h : i.cfgOk) :
    flagsBeforeInit systemIsolationFlags (systemMain i).events := by
  rw [systemMain_cfg i h]
  intro f hf
  simp only [systemIsolationFlags, flatpakIsolationFlags, List.mem_append, List.mem_cons,
    List.not_mem_nil, or_false] at hf
  rcases hf with (rfl | rfl | rfl | rfl | rfl | rfl) | rfl <;>
    simp [systemCfgEvents, List.takeWhile_cons]

/-- The system classification never terminates through the status-exception
routine. -/
theorem systemClassify_term_ne (o : InvokeOutcome) :
    (systemClassify o).term ≠ .statusException := by
  rw [← classify_eq]
  exact flatpakClassify_term_ne o

/-- Finalization in the system classification happens exactly on a normal
return or an exit request with a retrievable traceback. -/
theorem systemClassify_finalize_iff (o : InvokeOutcome) :
    Event.finalize ∈ (systemClassify o).events ↔
      (o = .normal ∨ ∃ e, o = .raised e ∧ e.hasTraceback = true ∧
        e.isSystemExit = true) := by
  rw [← classify_eq]
  exact flatpakClassify_finalize_iff o

/-- The flatpak tail never terminates through the status-exception routine. -/
theorem flatpakTail_term_ne (i : FlatpakInput) (name : String) :
    (flatpakTail i name).term ≠ .statusException := by
  unfold flatpakTail
  split
  · split
    · split
      · split
        · exact flatpakClassify_term_ne i.outcome
        · simp
      · simp
    · simp
  · simp

/-- The system tail never terminates through the status-exception routine. -/
theorem systemTail_term_ne (i : SystemInput) (name : String) :
    (systemTail i name).term ≠ .statusException := by
  unfold systemTail
  split
  · split
    · split
      · split
        · exact systemClassify_term_ne i.outcome
        · simp
      · simp
    · simp
  · simp

/-- Finalization in the flatpak tail happens exactly when the whole
import/invocation preparation succeeds and the outcome is a normal return
or an exit request with a retrievable traceback. -/
theorem flatpakTail_finalize_iff (i : FlatpakInput) (name : String) :
    Event.finalize ∈ (flatpakTail i name).events ↔
      (i.importRunpyOk = true ∧ i.getAttrOk = true ∧ i.toUnicodeOk = true ∧
        i.buildValueOk = true ∧
        (i.outcome = .normal ∨ ∃ e, i.outcome = .raised e ∧
          e.hasTraceback = true ∧ e.isSystemExit = true)) := by
  unfold flatpakTail
  split
  case isTrue h1 =>
    split
    case isTrue h2 =>
      split
      case isTrue h3 =>
        split
        case isTrue h4 =>
          simp [h1, h2, h3, h4, flatpakClassify_finalize_iff]
        case isFalse h4 =>
          simp [h4]
      case isFalse h3 =>
        simp [h3]
    case isFalse h2 =>
      simp [h2]
  case isFalse h1 =>
    simp [h1]

/-- Finalization in the system tail happens exactly when the whole
import/invocation preparation succeeds and the outcome is a normal return
or an exit request with a retrievable traceback. -/
theorem systemTail_finalize_iff (i : SystemInput) (name : String) :
    Event.finalize ∈ (systemTail i name).events ↔
      (i.importRunpyOk = true ∧ i.getAttrOk = true ∧ i.toUnicodeOk = true ∧
        i.buildValueOk = true ∧
        (i.outcome = .normal ∨ ∃ e, i.outcome = .raised e ∧
          e.hasTraceback = true ∧ e.isSystemExit = true)) := by
  unfold systemTail
  split
  case isTrue h1 =>
    split
    case isTrue h2 =>
      split
      case isTrue h3 =>
        split
        case isTrue h4 =>
          simp [h1, h2, h3, h4, systemClassify_finalize_iff]
        case isFalse h4 =>
          simp [h4]
      case isFalse h3 =>
        simp [h3]
    case isFalse h2 =>
      simp [h2]
  case isFalse h1 =>
    simp [h1]

set_option maxHeartbeats 1000000 in
/-- Case analysis over every flatpak run: a run terminates through the
status-exception routine exactly when some configuration step fails, such a
run ends with the configuration released, and finalization happens exactly
in fully set-up runs whose outcome is a normal return or an exit request
with a retrievable traceback. -/
theorem flatpakMain_chain (i : FlatpakInput) :
    ((flatpakMain i).term = .statusException ↔ ¬ i.cfgOk) ∧
    ((flatpakMain i).term = .statusException →
      (flatpakMain i).events.getLast? = some .clearConfig) ∧
    (Event.finalize ∈ (flatpakMain i).events ↔
      (i.setupOk ∧ (i.outcome = .normal ∨ ∃ e, i.outcome = .raised e ∧
        e.hasTraceback = true ∧ e.isSystemExit = true))) := by
  by_cases h1 : i.preInitOk = true
  case neg =>
    rw [Bool.not_eq_true] at h1
    simp [flatpakMain, FlatpakInput.cfgOk, FlatpakInput.setupOk, cfgFail, h1,
      List.getLast?_cons_cons]
  by_cases h2 : i.setHomeOk = true
  case neg =>
    rw [Bool.not_eq_true] at h2
    simp [flatpakMain, FlatpakInput.cfgOk, FlatpakInput.setupOk, cfgFail, h1, h2,
      List.getLast?_cons_cons]
  by_cases h3 : i.setRunModuleOk = true
  case neg =>
    rw [Bool.not_eq_true] at h3
    simp [flatpakMain, FlatpakInput.cfgOk, FlatpakInput.setupOk, cfgFail, h1, h2, h3,
      List.getLast?_cons_cons]
  by_cases h4 : i.readConfigOk = true
  case neg =>
    rw [Bool.not_eq_true] at h4
    simp [flatpakMain, FlatpakInput.cfgOk, FlatpakInput.setupOk, cfgFail, h1, h2, h3, h4,
      List.getLast?_cons_cons]
  by_cases h5 : i.appendZipOk = true
  case neg =>
    rw [Bool.not_eq_true] at h5
    simp [flatpakMain, FlatpakInput.cfgOk, FlatpakInput.setupOk, cfgFail, h1, h2, h3, h4, h5,
      List.getLast?_cons_cons]
  by_cases h6 : i.appendStdlibOk = true
  case neg =>
    rw [Bool.not_eq_true] at h6
    simp [flatpakMain, FlatpakInput.cfgOk, FlatpakInput.setupOk, cfgFail, h1, h2, h3, h4, h5, h6,
      List.getLast?_cons_cons]
  by_cases h7 : i.appendDynloadOk = true
  case neg =>
    rw [Bool.not_eq_true] at h7
    simp [flatpakMain, FlatpakInput.cfgOk, FlatpakInput.setupOk, cfgFail, h1, h2, h3, h4, h5, h6, h7,
      List.getLast?_cons_cons]
  by_cases h8 : i.appendAppPkgsOk = true
  case neg =>
    rw [Bool.not_eq_true] at h8
    simp [flatpakMain, FlatpakInput.cfgOk, FlatpakInput.setupOk, cfgFail, h1, h2, h3, h4, h5, h6, h7, h8,
      List.getLast?_cons_cons]
  by_cases h9 : i.appendAppOk = true
  case neg =>
    rw [Bool.not_eq_true] at h9
    simp [flatpakMain, FlatpakInput.cfgOk, FlatpakInput.setupOk, cfgFail, h1, h2, h3, h4, h5, h6, h7, h8, h9,
      List.getLast?_cons_cons]
  by_cases h10 : i.setArgvOk = true
  case neg =>
    rw [Bool.not_eq_true] at h10
    simp [flatpakMain, FlatpakInput.cfgOk, FlatpakInput.setupOk, cfgFail, h1, h2, h3, h4, h5, h6, h7, h8, h9, h10,
      List.getLast?_cons_cons]
  by_cases h11 : i.initOk = true
  case neg =>
    rw [Bool.not_eq_true] at h11
    simp [flatpakMain, FlatpakInput.cfgOk, FlatpakInput.setupOk, cfgFail, h1, h2, h3, h4, h5, h6, h7, h8, h9, h10, h11,
      List.getLast?_cons_cons]
  have hc : i.cfgOk := ⟨h1, h2, h3, h4, h5, h6, h7, h8, h9, h10, h11⟩
  rw [flatpakMain_cfg i hc]
  refine ⟨?_, ?_, ?_⟩
  · constructor
    · intro h
      exact absurd h (flatpakTail_term_ne i _)
    · intro h
      exact absurd hc h
  · intro h
    exact absurd h (flatpakTail_term_ne i _)
  · have hnc : Event.finalize ∉ flatpakCfgEvents i := by
      simp [flatpakCfgEvents]
    simp only [List.mem_append]
    rw [flatpakTail_finalize_iff]
    unfold FlatpakInput.setupOk
    tauto

set_option maxHeartbeats 1000000 in
/-- Case analysis over every system run: a run terminates through the
status-exception routine exactly when some configuration step fails, such a
run ends with the configuration released, and finalization happens exactly
in fully set-up runs whose outcome is a normal return or an exit request
with a retrievable traceback. -/
theorem systemMain_chain (i : SystemInput) :
    ((systemMain i).term = .statusException ↔ ¬ i.cfgOk) ∧
    ((systemMain i).term = .statusException →
      (systemMain i).events.getLast? = some .clearConfig) ∧
    (Event.finalize ∈ (systemMain i).events ↔
      (i.setupOk ∧ (i.outcome = .normal ∨ ∃ e, i.outcome = .raised e ∧
        e.hasTraceback = true ∧ e.isSystemExit = true))) := by
  by_cases h1 : i.preInitOk = true
  case neg =>
    rw [Bool.not_eq_true] at h1
    simp [systemMain, SystemInput.cfgOk, SystemInput.setupOk, cfgFail, h1,
      List.getLast?_cons_cons]
  by_cases h2 : i.setRunModuleOk = true
  case neg =>
    rw [Bool.not_eq_true] at h2
    simp [systemMain, SystemInput.cfgOk, SystemInput.setupOk, cfgFail, h1, h2,
      List.getLast?_cons_cons]
  by_cases h3 : i.readConfigOk = true
  case neg =>
    rw [Bool.not_eq_true] at h3
    simp [systemMain, SystemInput.cfgOk, SystemInput.setupOk, cfgFail, h1, h2, h3,
      List.getLast?_cons_cons]
  by_cases h4 : i.appendStdlibOk = true
  case neg =>
    rw [Bool.not_eq_true] at h4
    simp [systemMain, SystemInput.cfgOk, SystemInput.setupOk, cfgFail, h1, h2, h3, h4,
      List.getLast?_cons_cons]
  by_cases h5 : i.appendDynloadOk = true
  case neg =>
    rw [Bool.not_eq_true] at h5
    simp [systemMain, SystemInput.cfgOk, SystemInput.setupOk, cfgFail, h1, h2, h3, h4, h5,
      List.getLast?_cons_cons]
  by_cases h6 : i.appendAppOk = true
  case neg =>
    rw [Bool.not_eq_true] at h6
    simp [systemMain, SystemInput.cfgOk, SystemInput.setupOk, cfgFail, h1, h2, h3, h4, h5, h6,
      List.getLast?_cons_cons]
  by_cases h7 : i.appendAppPkgsOk = true
  case neg =>
    rw [Bool.not_eq_true] at h7
    simp [systemMain, SystemInput.cfgOk, SystemInput.setupOk, cfgFail, h1, h2, h3, h4, h5, h6, h7,
      List.getLast?_cons_cons]
  by_cases h8 : i.setArgvOk = true
  case neg =>
    rw [Bool.not_eq_true] at h8
    simp [systemMain, SystemInput.cfgOk, SystemInput.setupOk, cfgFail, h1, h2, h3, h4, h5, h6, h7, h8,
      List.getLast?_cons_cons]
  by_cases h9 : i.initOk = true
  case neg =>
    rw [Bool.not_eq_true] at h9
    simp [systemMain, SystemInput.cfgOk, SystemInput.setupOk, cfgFail, h1, h2, h3, h4, h5, h6, h7, h8, h9,
      List.getLast?_cons_cons]
  have hc : i.cfgOk := ⟨h1, h2, h3, h4, h5, h6, h7, h8, h9⟩
  rw [systemMain_cfg i hc]
  refine ⟨?_, ?_, ?_⟩
  · constructor
    · intro h
      exact absurd h (systemTail_term_ne i _)
    · intro h
      exact absurd hc h
  · intro h
    exact absurd h (systemTail_term_ne i _)
  · have hnc : Event.finalize ∉ systemCfgEvents i := by
      simp [systemCfgEvents]
    simp only [List.mem_append]
    rw [systemTail_finalize_iff]
    unfold SystemInput.setupOk
    tauto

/-- Setup of `fpWith` always succeeds. -/
theorem fpWith_setupOk (o : InvokeOutcome) : (fpWith o).setupOk :=
  ⟨⟨rfl, rfl, rfl, rfl, rfl, rfl, rfl, rfl, rfl, rfl, rfl⟩, rfl, rfl, rfl, rfl⟩

/-- Setup of `sysWith` always succeeds. -/
theorem sysWith_setupOk (o : InvokeOutcome) : (sysWith o).setupOk :=
  ⟨⟨rfl, rfl, rfl, rfl, rfl, rfl, rfl, rfl, rfl⟩, rfl, rfl, rfl, rfl⟩

/-! ### Claim theorems -/

/-- C9: The self-contained (flatpak) and system-installed variants implement
the same outcome-classification function: any identical invocation outcome
produces the same process exit code and the same diagnostic event trace. -/
theorem claim9_variants_classify_equally :
    ∀ o : InvokeOutcome, flatpakClassify o = systemClassify o :=
  fun o => classify_eq o

/-- C5: In every fully set-up run of either variant in which the invocation
of the entry module returns normally, the classification is normal completion
with teardown and the process exit code is 0. -/
theorem claim5_normal_return_zero (fi : FlatpakInput) (si : SystemInput)
    (hfs : fi.setupOk) (hfo : fi.outcome = .normal)
    (hss : si.setupOk) (hso : si.outcome = .normal) :
    (flatpakMain fi).term = .code 0 ∧ (systemMain si).term = .code 0 ∧
    flatpakClassify .normal = ⟨[.finalize], .code 0⟩ ∧
    systemClassify .normal = ⟨[.finalize], .code 0⟩ := by
  refine ⟨?_, ?_, rfl, rfl⟩
  · rw [flatpakMain_setup_term fi hfs, hfo]
    rfl
  · rw [systemMain_setup_term si hss, hso]
    rfl

/-- Witness for C5 at a concrete normally-returning run. -/
theorem claim5_normal_return_zero_witness :
    (flatpakMain (fpWith .normal)).term = .code 0 ∧
    (systemMain (sysWith .normal)).term = .code 0 :=
  have h := claim5_normal_return_zero (fpWith .normal) (sysWith .normal)
    (fpWith_setupOk .normal) rfl (sysWith_setupOk .normal) rfl
  ⟨h.1, h.2.1⟩

/-- C1 counterexample: there is no single fixed default exit code for absent
or non-integer SystemExit payloads.  An absent payload (None) makes the
process exit with code 0 while a non-integer payload makes it exit with
code 1, both decided inside the error-print routine, whose SystemExit
handler never returns to exit(ret); and for an integer payload beyond the C
int range the process exit code is the truncated value, not the payload. -/
theorem claim1_counterexample :
    (flatpakMain (fpWith (.raised ⟨true, true, some .pyNone⟩))).term = .code 0 ∧
    (flatpakMain (fpWith (.raised ⟨true, true, some .other⟩))).term = .code 1 ∧
    (flatpakMain (fpWith (.raised ⟨true, true, some (.pyInt (2 ^ 31))⟩))).term =
      .code (-(2 ^ 31)) := by
  refine ⟨rfl, rfl, ?_⟩
  decide

/-- C1 (amended): in every fully set-up run of either variant in which the
entry module raises SystemExit: an integer payload representable as a C int
yields that integer as the process exit code; an absent payload (None)
yields process exit code 0; and a payload that is neither absent nor an
integer is written to standard error and yields process exit code 1.  The
latter two codes are decided by the error-print routine's SystemExit
handler, not by the launcher's ret of -1, which only feeds the abnormal-exit
message. -/
theorem claim1_exit_code_amended :
    (∀ (fi : FlatpakInput) (e : PyExcState) (n : Int),
        fi.setupOk → fi.outcome = .raised e → e.isSystemExit = true →
        e.hasTraceback = true → e.codeAttr = some (.pyInt n) →
        cIntMin ≤ n → n ≤ cIntMax → (flatpakMain fi).term = .code n) ∧
    (∀ (si : SystemInput) (e : PyExcState) (n : Int),
        si.setupOk → si.outcome = .raised e → e.isSystemExit = true →
        e.hasTraceback = true → e.codeAttr = some (.pyInt n) →
        cIntMin ≤ n → n ≤ cIntMax → (systemMain si).term = .code n) ∧
    (∀ (fi : FlatpakInput) (e : PyExcState),
        fi.setupOk → fi.outcome = .raised e → e.isSystemExit = true →
        e.hasTraceback = true → e.codeAttr = some .pyNone →
        (flatpakMain fi).term = .code 0) ∧
    (∀ (si : SystemInput) (e : PyExcState),
        si.setupOk → si.outcome = .raised e → e.isSystemExit = true →
        e.hasTraceback = true → e.codeAttr = some .pyNone →
        (systemMain si).term = .code 0) ∧
    (∀ (fi : FlatpakInput) (e : PyExcState),
        fi.setupOk → fi.outcome = .raised e → e.isSystemExit = true →
        e.hasTraceback = true → e.codeAttr = some .other →
        (flatpakMain fi).term = .code 1 ∧
        Event.stderrObj ∈ (flatpakMain fi).events) ∧
    (∀ (si : SystemInput) (e : PyExcState),
        si.setupOk → si.outcome = .raised e → e.isSystemExit = true →
        e.hasTraceback = true → e.codeAttr = some .other →
        (systemMain si).term = .code 1 ∧
        Event.stderrObj ∈ (systemMain si).events) := by
  refine ⟨?_, ?_, ?_, ?_, ?_, ?_⟩
  · intro fi e n hs ho hse htb hca h1 h2
    rw [flatpakMain_setup_term fi hs, ho, (flatpakClassify_sysexit_int e _ hse htb hca).1,
        pyLong_AsLong_int h1 h2, cIntCast_eq_self h1 h2]
  · intro si e n hs ho hse htb hca h1 h2
    rw [systemMain_setup_term si hs, ho, ← classify_eq,
        (flatpakClassify_sysexit_int e _ hse htb hca).1,
        pyLong_AsLong_int h1 h2, cIntCast_eq_self h1 h2]
  · intro fi e hs ho hse htb hca
    rcases e with ⟨se, tb, ca⟩
    simp only at hse htb hca
    subst hse htb hca
    rw [flatpakMain_setup_term fi hs, ho, flatpakClassify_pyNone]
  · intro si e hs ho hse htb hca
    rcases e with ⟨se, tb, ca⟩
    simp only at hse htb hca
    subst hse htb hca
    rw [systemMain_setup_term si hs, ho, ← classify_eq, flatpakClassify_pyNone]
  · intro fi e hs ho hse htb hca
    rcases e with ⟨se, tb, ca⟩
    simp only at hse htb hca
    subst hse htb hca
    constructor
    · rw [flatpakMain_setup_term fi hs, ho, flatpakClassify_other]
    · rw [flatpakMain_setup_events fi hs, ho, flatpakClassify_other]
      simp
  · intro si e hs ho hse htb hca
    rcases e with ⟨se, tb, ca⟩
    simp only at hse htb hca
    subst hse htb hca
    constructor
    · rw [systemMain_setup_term si hs, ho, ← classify_eq, flatpakClassify_other]
    · rw [systemMain_setup_events si hs, ho, ← classify_eq, flatpakClassify_other]
      simp

/-- Witness for the amended C1 at concrete integer, None and non-integer
payloads. -/
theorem claim1_exit_code_amended_witness :
    (flatpakMain (fpWith (.raised ⟨true, true, some (.pyInt 3)⟩))).term = .code 3 ∧
    (systemMain (sysWith (.raised ⟨true, true, some (.pyInt 3)⟩))).term = .code 3 ∧
    (systemMain (sysWith (.raised ⟨true, true, some .pyNone⟩))).term = .code 0 ∧
    (systemMain (sysWith (.raised ⟨true, true, some .other⟩))).term = .code 1 :=
  ⟨claim1_exit_code_amended.1 _ _ 3 (fpWith_setupOk _) rfl rfl rfl rfl
      (by decide) (by decide),
   claim1_exit_code_amended.2.1 _ _ 3 (sysWith_setupOk _) rfl rfl rfl rfl
      (by decide) (by decide),
   claim1_exit_code_amended.2.2.2.1 _ _ (sysWith_setupOk _) rfl rfl rfl rfl,
   (claim1_exit_code_amended.2.2.2.2.2 _ _ (sysWith_setupOk _) rfl rfl rfl rfl).1⟩

/-- C2 counterexample: the uncaught-failure code -6 is not distinct from every
explicitly requested exit code.  An entry module that raises SystemExit(-6)
produces the very same process exit code -6 as an uncaught error, at these
concrete fully-set-up runs of the flatpak variant. -/
theorem claim2_counterexample :
    (flatpakMain (fpWith (.raised ⟨false, true, none⟩))).term = .code (-6) ∧
    (flatpakMain (fpWith (.raised ⟨true, true, some (.pyInt (-6))⟩))).term = .code (-6) := by
  constructor <;> rfl

/-- C2 (amended): in every fully set-up run of either variant in which the
entry module raises an uncaught error that is not a SystemExit (with a
retrievable traceback), the process exit code is the fixed non-zero constant
-6 and the error/stack diagnostic is printed to standard error as the final
action before termination; the constant coincides with an explicitly
requested exit code only when the requested code is itself -6. -/
theorem claim2_uncaught_failure_amended :
    (∀ (fi : FlatpakInput) (e : PyExcState),
        fi.setupOk → fi.outcome = .raised e → e.isSystemExit = false →
        e.hasTraceback = true →
        (flatpakMain fi).term = .code (-6) ∧
        (flatpakMain fi).events.getLast? = some .printErrToStderr) ∧
    (∀ (si : SystemInput) (e : PyExcState),
        si.setupOk → si.outcome = .raised e → e.isSystemExit = false →
        e.hasTraceback = true →
        (systemMain si).term = .code (-6) ∧
        (systemMain si).events.getLast? = some .printErrToStderr) ∧
    ((-6 : Int) ≠ 0) ∧
    (∀ (fi : FlatpakInput) (e : PyExcState) (n : Int),
        fi.setupOk → fi.outcome = .raised e → e.isSystemExit = true →
        e.hasTraceback = true → e.codeAttr = some (.pyInt n) →
        cIntMin ≤ n → n ≤ cIntMax → n ≠ -6 →
        (flatpakMain fi).term ≠ .code (-6)) := by
  refine ⟨?_, ?_, by decide, ?_⟩
  · intro fi e hs ho hse htb
    constructor
    · rw [flatpakMain_setup_term fi hs, ho, flatpakClassify_uncaught e hse htb]
    · rw [flatpakMain_setup_events fi hs, ho, flatpakClassify_uncaught e hse htb]
      rw [List.getLast?_append_of_ne_nil _ (by simp)]
      rfl
  · intro si e hs ho hse htb
    constructor
    · rw [systemMain_setup_term si hs, ho, ← classify_eq, flatpakClassify_uncaught e hse htb]
    · rw [systemMain_setup_events si hs, ho, ← classify_eq, flatpakClassify_uncaught e hse htb]
      rw [List.getLast?_append_of_ne_nil _ (by simp)]
      rfl
  · intro fi e n hs ho hse htb hca h1 h2 hne
    rw [flatpakMain_setup_term fi hs, ho, (flatpakClassify_sysexit_int e _ hse htb hca).1,
        pyLong_AsLong_int h1 h2, cIntCast_eq_self h1 h2]
    simp [hne]

/-- Witness for the amended C2 at a concrete uncaught error and a concrete
explicit exit with code 5. -/
theorem claim2_uncaught_failure_amended_witness :
    (flatpakMain (fpWith (.raised ⟨false, true, none⟩))).term = .code (-6) ∧
    (systemMain (sysWith (.raised ⟨false, true, none⟩))).term = .code (-6) ∧
    (flatpakMain (fpWith (.raised ⟨true, true, some (.pyInt 5)⟩))).term ≠ .code (-6) :=
  ⟨(claim2_uncaught_failure_amended.1 _ _ (fpWith_setupOk _) rfl rfl rfl).1,
   (claim2_uncaught_failure_amended.2.1 _ _ (sysWith_setupOk _) rfl rfl rfl).1,
   claim2_uncaught_failure_amended.2.2.2 _ _ 5 (fpWith_setupOk _) rfl rfl rfl rfl
     (by decide) (by decide) (by decide)⟩

/-- C3 counterexample: with the override environment variable set to the
empty string, the resolved entry module is the empty string, not the
build-time default, because the launcher only checks getenv for NULL. -/
theorem claim3_counterexample :
    resolve_app_module (some "") "myapp" = "" ∧
    resolve_app_module (some "") "myapp" ≠ "myapp" := by
  constructor
  · rfl
  · decide

/-- C3 (amended): if the override environment variable is set, its value --
even the empty string -- is the resolved entry module, regardless of the
build-time default; only when the variable is unset does the resolved module
equal the build-time default exactly.  The resolved name is the one the
launcher installs as the run module. -/
theorem claim3_module_resolution_amended :
    (∀ m d : String, resolve_app_module (some m) d = m) ∧
    (∀ d : String, resolve_app_module none d = d) ∧
    (∀ fi : FlatpakInput, fi.cfgOk →
        Event.setRunModule (resolve_app_module fi.envMainModule fi.moduleName) ∈
          (flatpakMain fi).events) ∧
    (∀ si : SystemInput, si.cfgOk →
        Event.setRunModule (resolve_app_module si.envMainModule si.moduleName) ∈
          (systemMain si).events) := by
  refine ⟨fun _ _ => rfl, fun _ => rfl, ?_, ?_⟩
  · intro fi hc
    rw [flatpakMain_cfg fi hc]
    simp [flatpakCfgEvents]
  · intro si hc
    rw [systemMain_cfg si hc]
    simp [systemCfgEvents]

/-- Witness for the amended C3 at a concrete run with the variable unset. -/
theorem claim3_module_resolution_amended_witness :
    Event.setRunModule (resolve_app_module none "myapp") ∈
      (flatpakMain (fpWith .normal)).events :=
  claim3_module_resolution_amended.2.2.1 (fpWith .normal) (fpWith_setupOk .normal).1

/-- C10: In every fully set-up run of either variant in which the entry
module raises SystemExit with a payload converting to the integer 0, the
launcher takes the normal-completion path: process exit code 0, runtime
teardown performed, and the externally visible output and the termination are
identical to the same run with a normal return. -/
theorem claim10_exit_zero_like_normal
    (fi : FlatpakInput) (si : SystemInput) (e : PyExcState) (a : PyCodeAttr)
    (hfs : fi.setupOk) (hfo : fi.outcome = .raised e)
    (hss : si.setupOk) (hso : si.outcome = .raised e)
    (hse : e.isSystemExit = true) (htb : e.hasTraceback = true)
    (hca : e.codeAttr = some a) (h0 : cIntCast (pyLong_AsLong a) = 0) :
    (flatpakMain fi).term = .code 0 ∧
    Event.finalize ∈ (flatpakMain fi).events ∧
    (flatpakMain fi).events.filter Event.visible =
      (flatpakMain { fi with outcome := .normal }).events.filter Event.visible ∧
    (flatpakMain fi).term = (flatpakMain { fi with outcome := .normal }).term ∧
    (systemMain si).term = .code 0 ∧
    Event.finalize ∈ (systemMain si).events ∧
    (systemMain si).events.filter Event.visible =
      (systemMain { si with outcome := .normal }).events.filter Event.visible ∧
    (systemMain si).term = (systemMain { si with outcome := .normal }).term := by
  have hfs' : ({ fi with outcome := InvokeOutcome.normal } : FlatpakInput).setupOk := hfs
  have hss' : ({ si with outcome := InvokeOutcome.normal } : SystemInput).setupOk := hss
  have hcl : flatpakClassify (.raised e) = ⟨[.fetchError, .finalize], .code 0⟩ :=
    flatpakClassify_sysexit_zero e a hse htb hca h0
  have hcls : systemClassify (.raised e) = ⟨[.fetchError, .finalize], .code 0⟩ := by
    rw [← classify_eq]
    exact hcl
  refine ⟨?_, ?_, ?_, ?_, ?_, ?_, ?_, ?_⟩
  · rw [flatpakMain_setup_term fi hfs, hfo, hcl]
  · rw [flatpakMain_setup_events fi hfs, hfo, hcl]
    simp
  · rw [flatpakMain_setup_events fi hfs, flatpakMain_setup_events _ hfs', hfo, hcl]
    have hpre : flatpakCfgEvents { fi with outcome := InvokeOutcome.normal } =
        flatpakCfgEvents fi := rfl
    simp [hpre, flatpakClassify, Event.visible]
  · rw [flatpakMain_setup_term fi hfs, flatpakMain_setup_term _ hfs', hfo, hcl]
    rfl
  · rw [systemMain_setup_term si hss, hso, hcls]
  · rw [systemMain_setup_events si hss, hso, hcls]
    simp
  · rw [systemMain_setup_events si hss, systemMain_setup_events _ hss', hso, hcls]
    have hpre : systemCfgEvents { si with outcome := InvokeOutcome.normal } =
        systemCfgEvents si := rfl
    simp [hpre, systemClassify, Event.visible]
  · rw [systemMain_setup_term si hss, systemMain_setup_term _ hss', hso, hcls]
    rfl

/-- Witness for C10 at a concrete SystemExit(0) run. -/
theorem claim10_exit_zero_like_normal_witness :
    (flatpakMain (fpWith (.raised ⟨true, true, some (.pyInt 0)⟩))).term = .code 0 ∧
    Event.finalize ∈ (flatpakMain (fpWith (.raised ⟨true, true, some (.pyInt 0)⟩))).events ∧
    (systemMain (sysWith (.raised ⟨true, true, some (.pyInt 0)⟩))).term = .code 0 :=
  have h := claim10_exit_zero_like_normal
    (fpWith (.raised ⟨true, true, some (.pyInt 0)⟩))
    (sysWith (.raised ⟨true, true, some (.pyInt 0)⟩))
    ⟨true, true, some (.pyInt 0)⟩ (.pyInt 0)
    (fpWith_setupOk _) rfl (sysWith_setupOk _) rfl rfl rfl rfl (by decide)
  ⟨h.1, h.2.1, h.2.2.2.2.1⟩

/-- C4 counterexample: in a concrete completed run of the system variant the
application-code path is appended before the bundled third-party
app_packages path, so the application code entry is not last, contradicting
the single documented order for both variants. -/
theorem claim4_counterexample :
    (systemMain (sysWith .normal)).appendedPaths =
      ["/usr/lib/python312", "/usr/lib/python312/lib-dynload",
       "/opt/testapp/lib/testapp/app", "/opt/testapp/lib/testapp/app_packages"] ∧
    (systemMain (sysWith .normal)).appendedPaths.getLast? ≠
      some "/opt/testapp/lib/testapp/app" := by
  constructor
  · rfl
  · decide

/-- C4 (amended): in every run with a completed configuration phase, the
flatpak variant appends, in order: the stdlib zip archive, the unpacked
stdlib, the compiled-extension directory, the bundled third-party packages,
and the application code last; the system variant appends, in order: the
unpacked stdlib, the compiled-extension directory, the application code, and
the bundled third-party packages last; in both variants the
isolation/suppression flags are set before the runtime is initialized. -/
theorem claim4_search_path_order_amended :
    (∀ fi : FlatpakInput, fi.cfgOk →
        (flatpakMain fi).appendedPaths =
          flatpakSearchPaths fi.pyVerCompact fi.pyVerDotted) ∧
    (∀ si : SystemInput, si.cfgOk →
        (systemMain si).appendedPaths =
          systemSearchPaths (installPathOf si.exePath) si.libDir si.pyTag si.appName) ∧
    (∀ fi : FlatpakInput, fi.cfgOk →
        flagsBeforeInit flatpakIsolationFlags (flatpakMain fi).events) ∧
    (∀ si : SystemInput, si.cfgOk →
        flagsBeforeInit systemIsolationFlags (systemMain si).events) :=
  ⟨flatpakMain_paths, systemMain_paths, flatpakMain_flags, systemMain_flags⟩

/-- Witness for the amended C4 at concrete completed runs. -/
theorem claim4_search_path_order_amended_witness :
    (flatpakMain (fpWith .normal)).appendedPaths = flatpakSearchPaths "312" "3.12" ∧
    (systemMain (sysWith .normal)).appendedPaths =
      systemSearchPaths (installPathOf "/opt/testapp/bin/testapp") "lib" "312" "testapp" ∧
    flagsBeforeInit flatpakIsolationFlags (flatpakMain (fpWith .normal)).events :=
  ⟨claim4_search_path_order_amended.1 (fpWith .normal) (fpWith_setupOk .normal).1,
   claim4_search_path_order_amended.2.1 (sysWith .normal) (sysWith_setupOk .normal).1,
   claim4_search_path_order_amended.2.2.1 (fpWith .normal) (fpWith_setupOk .normal).1⟩

/-- Lists whose head fails the predicate are left alone by dropWhile after
a fully-satisfying prefix. -/
theorem dropWhile_append_all {p : Char → Bool} (l1 l2 : List Char)
    (h : ∀ c ∈ l1, p c = true) :
    (l1 ++ l2).dropWhile p = l2.dropWhile p := by
  induction l1 with
  | nil => rfl
  | cons a l ih =>
    rw [List.cons_append, List.dropWhile_cons]
    simp only [h a (List.mem_cons_self a l), if_true]
    exact ih (fun c hc => h c (List.mem_cons_of_mem a hc))

/-- Appending a separator and a separator-free component and taking dirname
returns to the original path. -/
theorem dirname_append (r f : String) (hr : r ≠ "") (hf : ∀ c ∈ f.data, ¬ c = '/') :
    dirname (r ++ "/" ++ f) = r := by
  have hdata : (r ++ "/" ++ f).data = r.data ++ '/' :: f.data := by
    have h0 : (r ++ "/" ++ f).data = (r.data ++ ['/']) ++ f.data := rfl
    rw [h0, List.append_assoc]
    rfl
  have hrd : r.data ≠ [] := by
    intro hnil
    apply hr
    have h1 : r = String.mk r.data := rfl
    rw [h1, hnil]
  unfold dirname
  rw [hdata]
  have hrev : (r.data ++ '/' :: f.data).reverse = f.data.reverse ++ '/' :: r.data.reverse := by
    simp
  rw [hrev, dropWhile_append_all _ _ ?hall, List.dropWhile_cons]
  case hall =>
    intro c hc
    simp only [List.mem_reverse] at hc
    simp [hf c hc]
  simp only [decide_not, decide_eq_true_eq]
  norm_num
  simp [hrd]

/-- C6: In the system variant the installation root is the canonical
executable location with two trailing directory levels removed (dirname of
dirname), and the application-code and third-party-package search-path
entries are derived from that root: they are the third and fourth appended
paths, both prefixed by the root. -/
theorem claim6_install_root :
    (∀ root b f : String, root ≠ "" → (∀ c ∈ b.data, ¬ c = '/') →
        (∀ c ∈ f.data, ¬ c = '/') →
        installPathOf (root ++ "/" ++ b ++ "/" ++ f) = root) ∧
    (∀ si : SystemInput, si.cfgOk →
        (systemMain si).appendedPaths =
          systemSearchPaths (installPathOf si.exePath) si.libDir si.pyTag si.appName) ∧
    (∀ installPath libDir pyTag appName : String,
        (systemSearchPaths installPath libDir pyTag appName).get? 2 =
          some (installPath ++ "/" ++ libDir ++ "/" ++ appName ++ "/app") ∧
        (systemSearchPaths installPath libDir pyTag appName).get? 3 =
          some (installPath ++ "/" ++ libDir ++ "/" ++ appName ++ "/app_packages")) := by
  refine ⟨?_, systemMain_paths, fun _ _ _ _ => ⟨rfl, rfl⟩⟩
  intro root b f hroot hb hf
  have h1 : root ++ "/" ++ b ≠ "" := by
    intro hcon
    have h2 : (root ++ "/" ++ b).data = root.data ++ '/' :: b.data := by
      have h0 : (root ++ "/" ++ b).data = (root.data ++ ['/']) ++ b.data := rfl
      rw [h0, List.append_assoc]
      rfl
    rw [hcon] at h2
    exact List.cons_ne_nil '/' b.data (List.append_eq_nil.mp h2.symm).2
  unfold installPathOf
  rw [show root ++ "/" ++ b ++ "/" ++ f = (root ++ "/" ++ b) ++ "/" ++ f from rfl,
      dirname_append _ f h1 hf, dirname_append root b hroot hb]

/-- Witness for C6 at a concrete executable location. -/
theorem claim6_install_root_witness :
    installPathOf ("/opt/testapp" ++ "/" ++ "bin" ++ "/" ++ "testapp") = "/opt/testapp" ∧
    (systemMain (sysWith .normal)).appendedPaths =
      systemSearchPaths (installPathOf "/opt/testapp/bin/testapp") "lib" "312" "testapp" :=
  ⟨claim6_install_root.1 "/opt/testapp" "bin" "testapp" (by decide) (by decide) (by decide),
   claim6_install_root.2.1 (sysWith .normal) (sysWith_setupOk .normal).1⟩

/-- Classification when no traceback could be retrieved: silent exit(-5). -/
theorem flatpakClassify_noTraceback (e : PyExcState) (htb : e.hasTraceback = false) :
    flatpakClassify (.raised e) = ⟨[.fetchError], .code (-5)⟩ := by
  rcases e with ⟨se, tb, ca⟩
  simp only at htb
  subst htb
  simp [flatpakClassify]

/-- The flatpak tail when the runpy import fails: silent exit(-2). -/
theorem flatpakTail_runpyFail (i : FlatpakInput) (name : String)
    (h : i.importRunpyOk = false) :
    flatpakTail i name =
      ⟨[.stdout ("Running app module: " ++ name), .importRunpy], .code (-2)⟩ := by
  simp [flatpakTail, h]

/-- The flatpak tail when the attribute lookup fails: silent exit(-3). -/
theorem flatpakTail_attrFail (i : FlatpakInput) (name : String)
    (h1 : i.importRunpyOk = true) (h2 : i.getAttrOk = false) :
    flatpakTail i name =
      ⟨[.stdout ("Running app module: " ++ name), .importRunpy, .getAttrRunModuleAsMain],
       .code (-3)⟩ := by
  simp [flatpakTail, h1, h2]

/-- The flatpak tail when the module-name conversion fails: silent exit(-3). -/
theorem flatpakTail_unicodeFail (i : FlatpakInput) (name : String)
    (h1 : i.importRunpyOk = true) (h2 : i.getAttrOk = true) (h3 : i.toUnicodeOk = false) :
    flatpakTail i name =
      ⟨[.stdout ("Running app module: " ++ name), .importRunpy, .getAttrRunModuleAsMain,
        .toUnicodeEv name], .code (-3)⟩ := by
  simp [flatpakTail, h1, h2, h3]

/-- The flatpak tail when the argument construction fails: silent exit(-4). -/
theorem flatpakTail_argsFail (i : FlatpakInput) (name : String)
    (h1 : i.importRunpyOk = true) (h2 : i.getAttrOk = true) (h3 : i.toUnicodeOk = true)
    (h4 : i.buildValueOk = false) :
    flatpakTail i name =
      ⟨[.stdout ("Running app module: " ++ name), .importRunpy, .getAttrRunModuleAsMain,
        .toUnicodeEv name, .buildArgs], .code (-4)⟩ := by
  simp [flatpakTail, h1, h2, h3, h4]

/-- C7 counterexample: a run whose invocation outcome is an explicit exit
request with code 0 -- not a normal completion -- nevertheless performs the
runtime teardown before returning. -/
theorem claim7_counterexample :
    fpExitZero.outcome ≠ .normal ∧
    Event.finalize ∈ (flatpakMain fpExitZero).events := by
  constructor
  · decide
  · decide

/-- C7 (amended): runtime teardown is performed exactly in runs whose setup
completes and whose invocation outcome is a normal return or an explicit
exit request with a retrievable traceback -- for a zero-converting exit
request through the normal fall-through, for any other exit request inside
the error-print routine before the process exits.  Runs ending in an
uncaught non-exit error, a missing traceback, an import/invocation-setup
failure or a configuration failure terminate without teardown.  On normal
completion the teardown is the final action before code 0 is returned to
the OS. -/
theorem claim7_teardown_amended :
    (∀ fi : FlatpakInput, Event.finalize ∈ (flatpakMain fi).events ↔
        (fi.setupOk ∧ (fi.outcome = .normal ∨ ∃ e, fi.outcome = .raised e ∧
          e.hasTraceback = true ∧ e.isSystemExit = true))) ∧
    (∀ si : SystemInput, Event.finalize ∈ (systemMain si).events ↔
        (si.setupOk ∧ (si.outcome = .normal ∨ ∃ e, si.outcome = .raised e ∧
          e.hasTraceback = true ∧ e.isSystemExit = true))) ∧
    (∀ fi : FlatpakInput, fi.setupOk → fi.outcome = .normal →
        (flatpakMain fi).events.getLast? = some .finalize ∧
        (flatpakMain fi).term = .code 0) ∧
    (∀ si : SystemInput, si.setupOk → si.outcome = .normal →
        (systemMain si).events.getLast? = some .finalize ∧
        (systemMain si).term = .code 0) := by
  refine ⟨fun fi => (flatpakMain_chain fi).2.2, fun si => (systemMain_chain si).2.2, ?_, ?_⟩
  · intro fi hs ho
    constructor
    · rw [flatpakMain_setup_events fi hs, ho,
        List.getLast?_append_of_ne_nil _ (by simp [flatpakClassify])]
      rfl
    · rw [flatpakMain_setup_term fi hs, ho]
      rfl
  · intro si hs ho
    constructor
    · rw [systemMain_setup_events si hs, ho,
        List.getLast?_append_of_ne_nil _ (by simp [systemClassify])]
      rfl
    · rw [systemMain_setup_term si hs, ho]
      rfl

/-- Witness for the amended C7 at a concrete normally-completing run. -/
theorem claim7_teardown_amended_witness :
    (flatpakMain (fpWith .normal)).events.getLast? = some .finalize ∧
    (flatpakMain (fpWith .normal)).term = .code 0 :=
  claim7_teardown_amended.2.2.1 (fpWith .normal) (fpWith_setupOk .normal) rfl

/-- C8 counterexample: two distinct fatal import/invocation-setup failures
-- the attribute lookup on runpy and the module-name conversion -- terminate
with the same constant -3, so there is no distinct constant for each
distinct fatal failure. -/
theorem claim8_counterexample :
    (flatpakMain fpAttrFail).term = .code (-3) ∧
    (flatpakMain fpUnicodeFail).term = .code (-3) ∧
    fpAttrFail.getAttrOk = false ∧ fpAttrFail.toUnicodeOk = true ∧
    fpUnicodeFail.getAttrOk = true ∧ fpUnicodeFail.toUnicodeOk = false :=
  ⟨rfl, rfl, rfl, rfl, rfl, rfl⟩

/-- C8 (amended): every fallible configuration step, on failure, releases the
partially-built configuration (the run's final event is the configuration
clear) and terminates through the runtime's status-exception routine, one
shared path for all configuration steps -- a run terminates through that
routine exactly when some configuration step fails.  The fatal
import/invocation-setup failures terminate immediately after the failing
call, with no diagnostic of their own, with the fixed constants -2 (runpy
import), -3 (attribute lookup), -3 (module-name conversion), -4 (argument
construction) and -5 (unretrievable traceback), which are not all pairwise
distinct. -/
theorem claim8_failure_policy_amended :
    (∀ fi : FlatpakInput, ((flatpakMain fi).term = .statusException ↔ ¬ fi.cfgOk)) ∧
    (∀ fi : FlatpakInput, (flatpakMain fi).term = .statusException →
        (flatpakMain fi).events.getLast? = some .clearConfig) ∧
    (∀ fi : FlatpakInput, fi.cfgOk → fi.importRunpyOk = false →
        (flatpakMain fi).term = .code (-2) ∧
        (flatpakMain fi).events.getLast? = some .importRunpy) ∧
    (∀ fi : FlatpakInput, fi.cfgOk → fi.importRunpyOk = true → fi.getAttrOk = false →
        (flatpakMain fi).term = .code (-3) ∧
        (flatpakMain fi).events.getLast? = some .getAttrRunModuleAsMain) ∧
    (∀ fi : FlatpakInput, fi.cfgOk → fi.importRunpyOk = true → fi.getAttrOk = true →
        fi.toUnicodeOk = false →
        (flatpakMain fi).term = .code (-3) ∧
        (flatpakMain fi).events.getLast? =
          some (.toUnicodeEv (resolve_app_module fi.envMainModule fi.moduleName))) ∧
    (∀ fi : FlatpakInput, fi.cfgOk → fi.importRunpyOk = true → fi.getAttrOk = true →
        fi.toUnicodeOk = true → fi.buildValueOk = false →
        (flatpakMain fi).term = .code (-4) ∧
        (flatpakMain fi).events.getLast? = some .buildArgs) ∧
    (∀ (fi : FlatpakInput) (e : PyExcState), fi.setupOk → fi.outcome = .raised e →
        e.hasTraceback = false → (flatpakMain fi).term = .code (-5)) := by
  refine ⟨fun fi => (flatpakMain_chain fi).1, fun fi => (flatpakMain_chain fi).2.1,
    ?_, ?_, ?_, ?_, ?_⟩
  · intro fi hc h
    rw [flatpakMain_cfg fi hc, flatpakTail_runpyFail fi _ h]
    exact ⟨rfl, by rw [List.getLast?_append_of_ne_nil _ (by simp)]; rfl⟩
  · intro fi hc h1 h2
    rw [flatpakMain_cfg fi hc, flatpakTail_attrFail fi _ h1 h2]
    exact ⟨rfl, by rw [List.getLast?_append_of_ne_nil _ (by simp)]; rfl⟩
  · intro fi hc h1 h2 h3
    rw [flatpakMain_cfg fi hc, flatpakTail_unicodeFail fi _ h1 h2 h3]
    exact ⟨rfl, by rw [List.getLast?_append_of_ne_nil _ (by simp)]; rfl⟩
  · intro fi hc h1 h2 h3 h4
    rw [flatpakMain_cfg fi hc, flatpakTail_argsFail fi _ h1 h2 h3 h4]
    exact ⟨rfl, by rw [List.getLast?_append_of_ne_nil _ (by simp)]; rfl⟩
  · intro fi e hs ho htb
    rw [flatpakMain_setup_term fi hs, ho, flatpakClassify_noTraceback e htb]

/-- Witness for the amended C8 at a concrete failing configuration step and
a concrete failing runpy import. -/
theorem claim8_failure_policy_amended_witness :
    (flatpakMain fpPreInitFail).term = .statusException ∧
    (flatpakMain fpRunpyFail).term = .code (-2) ∧
    (flatpakMain fpRunpyFail).events.getLast? = some .importRunpy :=
  have h2 := claim8_failure_policy_amended.2.2.1 fpRunpyFail
    ⟨rfl, rfl, rfl, rfl, rfl, rfl, rfl, rfl, rfl, rfl, rfl⟩ rfl
  ⟨(claim8_failure_policy_amended.1 fpPreInitFail).mpr
      (fun h => Bool.false_ne_true h.1),
   h2.1, h2.2⟩

end Briefcase
